import Mathlib

/-!
# Star Mercs — verification of the combat & morale resolution engine

Shallow embedding of the Star Mercs Foundry VTT system (JavaScript) in Lean 4.

The definitions below are translated from the repository source:
* `src/module/config.mjs` — the `STARMERCS.ratings` table (labels and skill
  bonuses only; note that no entry defines an `accuracy` property).
* `src/module/documents/actor.mjs` — the combat resolution engine
  (`validateAttack`, `calculateAccuracy`, `determineHitResult`,
  `calculateDamage`, `resolveAttack`), damage application (`applyDamage`)
  and supply transfer (`transferSupply`).
* `src/module/documents/combat.mjs` — the morale engine
  (`_evaluateMoraleRoll`, `_runMoraleChecks`, `_runAssaultMorale`) and the
  consolidation cleanup (`_runConsolidationCleanup`).

JavaScript numbers appearing here are integers throughout (all schema fields
are declared `integer: true`); they are modelled as `Int`.  The one place the
source performs non-integer arithmetic — `maxStrength * 0.25` in
`applyDamage` — is modelled exactly over `ℚ` (the literal `0.25` is the exact
dyadic rational 1/4, so double-precision evaluation agrees with `ℚ` for all
integer inputs in range).  Foundry documents are mutable; every mutation in
the source is an explicit `update`/`setFlag` call, modelled here by returning
the new state.  Die rolls (`new Roll("1d10")`) are passed in as explicit
arguments.  Canvas geometry (hex distances, comms range, retreat eligibility)
is out of scope of the engine and is supplied as oracle inputs.
-/

namespace StarMercs

/-! ## Data model -/

/-- An entry of the `STARMERCS.ratings` table in `config.mjs`.  The config
defines only `label` (irrelevant here) and `bonus`; `accuracy` is carried as
an `Option` because `calculateAccuracy` reads `ratingData?.accuracy`, a
property that no config entry defines. -/
structure RatingData where
  bonus : Int
  accuracy : Option Int
deriving DecidableEq, Repr

/-- `STARMERCS.ratings` from `config.mjs` (lines 9–15).  Every entry carries
`accuracy := none`: the config file sets only `label` and `bonus`, so the
JavaScript read `ratingData?.accuracy` yields `undefined` for every rating. -/
def ratingsConfig : String → Option RatingData
  | "green" => some { bonus := 0, accuracy := none }
  | "trained" => some { bonus := 1, accuracy := none }
  | "experienced" => some { bonus := 2, accuracy := none }
  | "veteran" => some { bonus := 3, accuracy := none }
  | "elite" => some { bonus := 5, accuracy := none }
  | _ => none

/-- A trait item embedded in a unit (`type == "trait"`), with its `[X]`
parameter `traitValue` and the `active` toggle. -/
structure Trait where
  name : String
  traitValue : Int
  active : Bool
deriving DecidableEq, Repr

/-- A weapon item (`WeaponData` schema): attack type (`"soft"`, `"hard"`,
`"antiAir"`), base damage, range, the `accurate`/`inaccurate`/`area` weapon
traits (schema defaults 0/0/false, matching the `?? 0` reads), and the
assigned `targetId`. -/
structure Weapon where
  attackType : String
  damage : Int
  range : Int
  accurate : Int
  inaccurate : Int
  area : Bool
  targetId : String
deriving DecidableEq, Repr

/-- A Star Mercs actor.  `type` is the Foundry document type (`"unit"` for
combat units).  `casualtyPenalty` and the two `readinessPenalty` components
are the derived fields computed by `UnitData.prepareDerivedData`; the combat
pipeline reads them off the actor (`attacker.system.casualtyPenalty ?? 0`
etc.), so they appear here as plain fields. -/
structure Actor where
  type : String
  rating : String
  strengthValue : Int
  strengthMax : Int
  readinessValue : Int
  readinessMax : Int
  supplyCurrent : Int
  supplyCapacity : Int
  ewar : Int
  casualtyPenalty : Int
  readinessPenaltyAccuracy : Int
  readinessPenaltyDamage : Int
  currentOrder : String
  traits : List Trait
deriving DecidableEq, Repr

/-- JavaScript `toLowerCase` modelled over the underlying character list.
(`String.toLower` computes the same string but is defined by position
recursion, which does not reduce in the kernel; this structural version
does.) -/
def lowerString (s : String) : String :=
  ⟨s.data.map Char.toLower⟩

/-- `StarMercsActor.hasTrait`: case-insensitive name match over trait items,
gated by the `active` toggle. -/
def Actor.hasTrait (a : Actor) (traitName : String) : Bool :=
  a.traits.any fun t => t.active && lowerString t.name == lowerString traitName

/-- `StarMercsActor.getTraitValue`: the `[X]` value of the first matching
active trait, or 0 if not found/inactive. -/
def Actor.getTraitValue (a : Actor) (traitName : String) : Int :=
  match a.traits.find? (fun t => t.active && lowerString t.name == lowerString traitName) with
  | some t => t.traitValue
  | none => 0

/-! ## Attack validation (`validateAttack`, actor.mjs lines 1135–1155) -/

/-- Result of `validateAttack`. -/
structure ValidationResult where
  valid : Bool
  reason : Option String
  softVsHeavy : Bool
deriving DecidableEq, Repr

/-- `validateAttack(weapon, target)`: flying units can only be hit by
anti-air (unless hovering); anti-air can only target flying units; a soft
attack against a Heavy target is allowed but flagged `softVsHeavy`.  The
interpolated unit/weapon names of the reason strings are elided. -/
def validateAttack (weapon : Weapon) (target : Actor) : ValidationResult :=
  let attackType := weapon.attackType
  let isFlying := target.hasTrait "Flying"
  let isHovering := target.hasTrait "Hover"
  let isHeavy := target.hasTrait "Heavy"
  if isFlying && !isHovering && attackType != "antiAir" then
    { valid := false
      reason := some "target is Flying — only Anti-Air weapons can target it."
      softVsHeavy := false }
  else if attackType == "antiAir" && !isFlying then
    { valid := false
      reason := some "weapon (Anti-Air) can only target units with the Flying trait."
      softVsHeavy := false }
  else
    { valid := true, reason := none, softVsHeavy := attackType == "soft" && isHeavy }

/-! ## Accuracy (`calculateAccuracy`, actor.mjs lines 1170–1188) -/

/-- Result of `calculateAccuracy`. -/
structure AccuracyResult where
  effective : Int
  base : Int
  readinessMod : Int
  ewarMod : Int
  accurateMod : Int
  inaccurateMod : Int
deriving DecidableEq, Repr

/-- `calculateAccuracy(weapon, attacker, target)`:
`base = CONFIG.STARMERCS.ratings?.[attacker.system.rating]?.accuracy ?? 7`
(the config entries carry no `accuracy` property — see `ratingsConfig`),
then weapon `accurate`/`inaccurate` mods, the attacker readiness penalty and
the target EWAR, clamped into [2, 10]. -/
def calculateAccuracy (weapon : Weapon) (attacker : Actor) (target : Option Actor) :
    AccuracyResult :=
  let base := ((ratingsConfig attacker.rating).bind (fun rd => rd.accuracy)).getD 7
  let accurateMod := weapon.accurate
  let inaccurateMod := weapon.inaccurate
  let readinessMod := attacker.readinessPenaltyAccuracy
  let ewarMod := match target with
    | some t => t.ewar
    | none => 0
  let effective := max 2 (min 10 (base - accurateMod + inaccurateMod + readinessMod + ewarMod))
  { effective := effective, base := base, readinessMod := readinessMod,
    ewarMod := ewarMod, accurateMod := accurateMod, inaccurateMod := inaccurateMod }

/-! ## Hit determination (`determineHitResult`, actor.mjs lines 1198–1204) -/

/-- Result of `determineHitResult` — the `type` strings are exactly the
source literals. -/
structure HitResult where
  hit : Bool
  type : String
deriving DecidableEq, Repr

/-- `determineHitResult(rollTotal, effectiveAccuracy)`. -/
def determineHitResult (rollTotal effectiveAccuracy : Int) : HitResult :=
  if rollTotal = 1 then { hit := false, type := "critical_miss" }
  else if rollTotal = 10 then { hit := true, type := "critical_hit" }
  else if rollTotal < effectiveAccuracy then { hit := false, type := "miss" }
  else if rollTotal = effectiveAccuracy then { hit := true, type := "partial" }
  else { hit := true, type := "hit" }

/-! ## Damage (`calculateDamage`, actor.mjs lines 1227–1309) -/

/-- A labeled damage modifier; the soft-vs-Heavy fixed-damage entry carries a
JavaScript `null` value, hence the `Option`. -/
structure DamageModifier where
  label : String
  value : Option Int
deriving DecidableEq, Repr

/-- Result of `calculateDamage`. -/
structure DamageResult where
  final : Int
  base : Int
  modifiers : List DamageModifier
deriving DecidableEq, Repr

/-- `calculateDamage(weapon, attacker, target, hitType)`.  The source looks
up the attacking token's `assaultTarget` flag and the target token's id on
the canvas; those two lookup results are passed in here
(`attackerAssaultTargetId` is `token.getFlag("star-mercs","assaultTarget")`,
`targetTokenId` is `targetToken?.id`). -/
def calculateDamage (weapon : Weapon) (attacker target : Actor)
    (attackerAssaultTargetId : Option String) (targetTokenId : Option String)
    (hitType : String) : DamageResult :=
  let base := weapon.damage
  let d0 := base
  let m0 : List DamageModifier := []
  -- Critical / partial modifiers
  let d1 := if hitType == "critical_hit" then d0 + 1
    else if hitType == "partial" then d0 - 1 else d0
  let m1 := if hitType == "critical_hit" then m0 ++ [{ label := "Critical Hit", value := some 1 }]
    else if hitType == "partial" then m0 ++ [{ label := "Partial Success", value := some (-1) }]
    else m0
  -- Attacker casualty penalty
  let cp := attacker.casualtyPenalty
  let d2 := if cp > 0 then d1 - cp else d1
  let m2 := if cp > 0 then m1 ++ [{ label := "Casualty Penalty", value := some (-cp) }] else m1
  -- Attacker readiness damage penalty (already negative)
  let rd := attacker.readinessPenaltyDamage
  let d3 := if rd ≠ 0 then d2 + rd else d2
  let m3 := if rd ≠ 0 then m2 ++ [{ label := "Low Readiness", value := some rd }] else m2
  -- Assault order: +1 damage dealt to the declared assault target
  let assaultHit := attacker.currentOrder == "assault" &&
    (match attackerAssaultTargetId with
     | some aid => aid != "" && targetTokenId == some aid
     | none => false)
  let d4 := if assaultHit then d3 + 1 else d3
  let m4 := if assaultHit then m3 ++ [{ label := "Assault (+1 damage)", value := some 1 }] else m3
  -- Assault order on target: +1 damage received from all sources
  let d5 := if target.currentOrder == "assault" then d4 + 1 else d4
  let m5 := if target.currentOrder == "assault" then
    m4 ++ [{ label := "Target assaulting (+1 incoming)", value := some 1 }] else m4
  -- Area weapon trait: +1 damage vs Infantry
  let areaVsInf := weapon.area && target.hasTrait "Infantry"
  let d6 := if areaVsInf then d5 + 1 else d5
  let m6 := if areaVsInf then m5 ++ [{ label := "Area vs Infantry", value := some 1 }] else m5
  -- Hard attack vs Infantry: half damage, rounded down (Math.floor on the
  -- running total; JavaScript floor-division semantics match Int.fdiv)
  let hardVsInf := weapon.attackType == "hard" && target.hasTrait "Infantry"
  let d7 := if hardVsInf then Int.fdiv d6 2 else d6
  let m7 := if hardVsInf then
    m6 ++ [{ label := "Hard vs Infantry (half)", value := some (Int.fdiv d6 2 - d6) }] else m6
  -- Target Armored[X] damage reduction
  let armorValue := target.getTraitValue "Armored"
  let d8 := if armorValue > 0 then d7 - armorValue else d7
  let m8 := if armorValue > 0 then
    m7 ++ [{ label := "Armored", value := some (-armorValue) }] else m7
  -- Target Entrenched: -1 damage
  let d9 := if target.hasTrait "Entrenched" then d8 - 1 else d8
  let m9 := if target.hasTrait "Entrenched" then
    m8 ++ [{ label := "Entrenched", value := some (-1) }] else m8
  -- Target Fortified: -2 damage
  let d10 := if target.hasTrait "Fortified" then d9 - 2 else d9
  let m10 := if target.hasTrait "Fortified" then
    m9 ++ [{ label := "Fortified", value := some (-2) }] else m9
  -- Floor at minimum 1
  { final := max 1 d10, base := base, modifiers := m10 }

/-! ## Attack resolution (`resolveAttack`, actor.mjs lines 1330–1388) -/

/-- The structured outcome of `resolveAttack`.  The invalid short-circuit
return of the source carries no `softVsHeavy` property (JavaScript
`undefined`), hence the `Option Bool`. -/
structure AttackResult where
  valid : Bool
  reason : Option String
  roll : Option Int
  accuracy : Option AccuracyResult
  hitResult : Option HitResult
  damage : Option DamageResult
  softVsHeavy : Option Bool
deriving DecidableEq, Repr

/-- `resolveAttack(weapon, attacker, target)` with the single `1d10` roll
passed in as `die`.  The source performs no document mutation: it only
validates, computes accuracy, determines the hit, computes damage, and
packages the result (damage application is the caller's responsibility). -/
def resolveAttack (weapon : Weapon) (attacker target : Actor)
    (attackerAssaultTargetId : Option String) (targetTokenId : Option String)
    (die : Int) : AttackResult :=
  let validation := validateAttack weapon target
  if !validation.valid then
    { valid := false, reason := validation.reason, roll := none, accuracy := none,
      hitResult := none, damage := none, softVsHeavy := none }
  else
    let softVsHeavy := validation.softVsHeavy
    let accuracy := calculateAccuracy weapon attacker (some target)
    let hitResult0 := determineHitResult die accuracy.effective
    -- Soft vs Heavy — only a natural 10 can hit
    let hitResult := if softVsHeavy && die ≠ 10 then
      { hit := false, type := "miss" } else hitResult0
    let damage : Option DamageResult :=
      if hitResult.hit then
        if softVsHeavy then
          some { final := 1, base := weapon.damage,
                 modifiers := [{ label := "Soft vs Heavy (fixed)", value := none }] }
        else
          some (calculateDamage weapon attacker target attackerAssaultTargetId
            targetTokenId hitResult.type)
      else none
    { valid := true, reason := none, roll := some die, accuracy := some accuracy,
      hitResult := some hitResult, damage := damage, softVsHeavy := some softVsHeavy }

/-! ## Token flags and the targeted-attack pipeline -/

/-- A record of one pending hit (`addPendingDamage`). -/
structure HitRecord where
  source : String
  weapon : String
  damage : Int
  readinessLoss : Int
deriving DecidableEq, Repr

/-- The `pendingDamage` accumulator flag. -/
structure PendingDamage where
  strength : Int
  readiness : Int
  hits : List HitRecord
deriving DecidableEq, Repr

/-- The `star-mercs` flags of a token document.  `none` models an unset flag
(`unsetFlag` / `getFlag` returning `undefined`). -/
structure TokenFlags where
  pendingDamage : Option PendingDamage
  movementUsed : Option Int
  moveDestination : Option (Int × Int)
  assaultTarget : Option String
  weaponsFired : Option Int
  disordered : Option Bool
  breaking : Option Bool
  broken : Option Bool
deriving DecidableEq, Repr

/-- A token document: its canvas id and its `star-mercs` flags. -/
structure Token where
  id : String
  flags : TokenFlags
deriving DecidableEq, Repr

/-- The targeted-attack pipeline of `_rollTargetedAttack` (actor.mjs):
`resolveAttack(weapon, this, target)`, where `calculateDamage` internally
resolves the attacking token's `assaultTarget` flag and the target token's
canvas id.  Both tokens — including the target token's `disordered` flag —
are in scope here; the resolution forwards only the assault-target flag and
the target token id into the calculators. -/
def resolveTargetedAttack (weapon : Weapon) (attacker target : Actor)
    (attackerToken targetToken : Token) (die : Int) : AttackResult :=
  resolveAttack weapon attacker target attackerToken.flags.assaultTarget
    (some targetToken.id) die

/-! ## Damage application (`applyDamage`, actor.mjs lines 724–753) -/

/-- Result of `applyDamage`. -/
structure DamageApplication where
  newStrength : Int
  newReadiness : Int
  readinessLost : Int
  destroyed : Bool
  routed : Bool
deriving DecidableEq, Repr

/-- `applyDamage(damage)`: strength reduced by the damage, floored at 0;
readiness loss is 2 when the single hit exceeds 25% of max strength
(`damage > maxStrength * 0.25` — the comparison is exact over ℚ, and the
double-precision original agrees since 0.25 is dyadic), else 1; the new
values are written back by `update` (returned here). -/
def applyDamage (a : Actor) (damage : Int) : DamageApplication :=
  let currentStrength := a.strengthValue
  let maxStrength := a.strengthMax
  let currentReadiness := a.readinessValue
  let newStrength := max 0 (currentStrength - damage)
  let readinessLost : Int := if (damage : ℚ) > (maxStrength : ℚ) * (1 / 4) then 2 else 1
  let newReadiness := max 0 (currentReadiness - readinessLost)
  let destroyed := decide (newStrength ≤ 0)
  let routed := !destroyed && decide (newReadiness ≤ 0)
  { newStrength := newStrength, newReadiness := newReadiness,
    readinessLost := readinessLost, destroyed := destroyed, routed := routed }

/-! ## Supply transfer (`transferSupply`, actor.mjs lines 788–813) -/

/-- Outcome of `transferSupply`: the boolean return value together with the
two supply pools after the (possible) updates. -/
structure TransferOutcome where
  success : Bool
  senderSupply : Int
  targetSupply : Int
deriving DecidableEq, Repr

/-- `transferSupply(targetActor, amount)`: fails for non-unit targets; the
transferred amount is clamped to what the sender has and what the target can
still receive (`Math.min(amount, currentSupply, targetCapacity -
targetSupply)`); a non-positive clamped amount fails without mutating. -/
def transferSupply (sender target : Actor) (amount : Int) : TransferOutcome :=
  if target.type != "unit" then
    { success := false, senderSupply := sender.supplyCurrent,
      targetSupply := target.supplyCurrent }
  else
    let currentSupply := sender.supplyCurrent
    let targetSupply := target.supplyCurrent
    let targetCapacity := target.supplyCapacity
    let actualAmount := min amount (min currentSupply (targetCapacity - targetSupply))
    if actualAmount ≤ 0 then
      { success := false, senderSupply := currentSupply, targetSupply := targetSupply }
    else
      { success := true, senderSupply := currentSupply - actualAmount,
        targetSupply := targetSupply + actualAmount }

/-! ## Consolidation cleanup (`_runConsolidationCleanup`, combat.mjs 887–918) -/

/-- A combatant as seen by the cleanup loop: the actor document type, its
weapon items, its `currentOrder`, and its token (combatants may lack one). -/
structure Combatant where
  actorType : String
  weapons : List Weapon
  currentOrder : String
  token : Option TokenFlags
deriving DecidableEq, Repr

/-- The body of the `_runConsolidationCleanup` loop for one combatant:
skip non-units; clear the `targetId` of every weapon that has one; when a
token exists, unset `movementUsed`, `moveDestination`, `assaultTarget`,
`weaponsFired` and `disordered`; clear `currentOrder`. -/
def runConsolidationCleanupOne (c : Combatant) : Combatant :=
  if c.actorType != "unit" then c
  else
    { c with
      weapons := c.weapons.map fun w =>
        if w.targetId != "" then { w with targetId := "" } else w
      token := c.token.map fun tk =>
        { tk with movementUsed := none, moveDestination := none,
                  assaultTarget := none, weaponsFired := none, disordered := none }
      currentOrder := "" }

/-- `_runConsolidationCleanup`: the cleanup applied to every combatant. -/
def runConsolidationCleanup (cs : List Combatant) : List Combatant :=
  cs.map runConsolidationCleanupOne

/-! ## Morale engine (`combat.mjs`) -/

/-- Result of `_evaluateMoraleRoll` (combat.mjs lines 456–466). -/
structure MoraleRollResult where
  total : Int
  passed : Bool
  autoFail : Bool
deriving DecidableEq, Repr

/-- `_evaluateMoraleRoll(dieResult, damageTaken, commsIsolated, readiness)`:
a natural 1 always fails; otherwise the total is the die minus damage taken
minus 2 if comms-isolated, and the check passes when the total exceeds the
current readiness. -/
def evaluateMoraleRoll (dieResult damageTaken : Int) (commsIsolated : Bool)
    (readiness : Int) : MoraleRollResult :=
  if dieResult = 1 then { total := dieResult, passed := false, autoFail := true }
  else
    let total := dieResult - damageTaken - (if commsIsolated then 2 else 0)
    { total := total, passed := decide (total > readiness), autoFail := false }

/-- The morale-relevant state of one combatant unit: actor fields plus the
`breaking`/`broken` token flags (read with `?? false`, hence plain `Bool`)
and the `assaultTarget` token flag.  `id` is the token id. -/
structure MUnit where
  id : String
  strength : Int
  readiness : Int
  currentOrder : String
  breaking : Bool
  broken : Bool
  assaultTarget : Option String
deriving DecidableEq, Repr

/-- The oracle inputs of one consolidation morale pass: the d10 results and
the canvas-derived facts (comms isolation, Command proximity, retreat
eligibility), each keyed by token id.  `die1`/`die2` are a unit's morale die
and its Command re-roll; `assaultDieA`/`assaultDieD` are the attacker and
defender dice of the assault resolution keyed by the assaulting unit. -/
structure MoraleEnv where
  die1 : String → Int
  die2 : String → Int
  commsIsolated : String → Bool
  hasCommandNearby : String → Bool
  assaultDieA : String → Int
  assaultDieD : String → Int
  canRetreat : String → Bool

/-- Live lookup of a combatant unit by token id (documents are shared,
mutable objects in Foundry; the evolving list models their current state). -/
def lookupUnit (st : List MUnit) (cid : String) : Option MUnit :=
  st.find? fun u => u.id == cid

/-- Apply a document update to the unit(s) with the given token id. -/
def updateUnit (st : List MUnit) (cid : String) (f : MUnit → MUnit) : List MUnit :=
  st.map fun u => if u.id == cid then f u else u

/-- The morale roll of `_runMoraleChecks` including the Command re-roll:
`finalPassed = result.passed || (rerolled && rerollEval?.passed)`, where the
re-roll happens only on failure with an active Command trait nearby. -/
def moraleFinalPassed (env : MoraleEnv) (cid : String) (damageTaken readiness : Int) :
    Bool :=
  let iso := env.commsIsolated cid
  let r1 := evaluateMoraleRoll (env.die1 cid) damageTaken iso readiness
  if r1.passed then true
  else if env.hasCommandNearby cid then
    (evaluateMoraleRoll (env.die2 cid) damageTaken iso readiness).passed
  else false

/-- One iteration of the `_runMoraleChecks` loop (combat.mjs lines 490–643)
for the combatant with token id `cid`, acting on the current state `st`:
skip destroyed/assault units; Breaking/Broken units auto-recover when
undamaged, otherwise re-roll — pass recovers, fail surrenders (strength
forced to 0, both flags cleared); normal units with readiness < 10 roll and
gain Breaking on failure. -/
def moraleStep (env : MoraleEnv) (dmg : String → Int) (st : List MUnit)
    (cid : String) : List MUnit :=
  match lookupUnit st cid with
  | none => st
  | some u =>
    if u.strength ≤ 0 then st
    else if u.currentOrder == "assault" then st
    else if u.breaking || u.broken then
      if dmg cid = 0 then
        updateUnit st cid fun v => { v with breaking := false, broken := false }
      else if moraleFinalPassed env cid (dmg cid) u.readiness then
        updateUnit st cid fun v => { v with breaking := false, broken := false }
      else
        updateUnit st cid fun v =>
          { v with strength := 0, breaking := false, broken := false }
    else if u.readiness < 10 then
      if moraleFinalPassed env cid (dmg cid) u.readiness then st
      else updateUnit st cid fun v => { v with breaking := true }
    else st

/-- `_runMoraleChecks(damageTakenMap)`: the loop over the combatants.  The
iteration order is the combatant list; each step reads the live documents. -/
def runMoraleChecks (env : MoraleEnv) (dmg : String → Int) (st : List MUnit) :
    List MUnit :=
  (st.map fun u => u.id).foldl (fun s cid => moraleStep env dmg s cid) st

/-- One iteration of the `_runAssaultMorale` loop (combat.mjs lines 666–759)
for the combatant with token id `cid`: only live assault-ordered units with
a live assault target resolve; both sides roll morale (no comms modifier);
the outcome matrix mutates readiness, `breaking`, `broken` and (on a failed
retreat) strength exactly as in the source. -/
def assaultStep (env : MoraleEnv) (dmg : String → Int) (st : List MUnit)
    (cid : String) : List MUnit :=
  match lookupUnit st cid with
  | none => st
  | some u =>
    if u.currentOrder != "assault" then st
    else if u.strength ≤ 0 then st
    else match u.assaultTarget with
    | none => st
    | some tid =>
      match lookupUnit st tid with
      | none => st
      | some t =>
        if t.strength ≤ 0 then st
        else
          let aResult := evaluateMoraleRoll (env.assaultDieA cid) (dmg cid) false u.readiness
          let dResult := evaluateMoraleRoll (env.assaultDieD cid) (dmg tid) false t.readiness
          if aResult.passed && dResult.passed then
            -- Both pass: stalemate
            st
          else if !aResult.passed && dResult.passed then
            -- Attacker fails, defender passes: attacker Breaking, loses 2 RDY
            let newRdy := max 0 (u.readiness - 2)
            updateUnit st cid fun v => { v with readiness := newRdy, breaking := true }
          else if aResult.passed && !dResult.passed then
            -- Attacker passes, defender fails: rout or surrender
            let newRdy := max 0 (t.readiness - 2)
            let st1 := updateUnit st tid fun v => { v with readiness := newRdy }
            if env.canRetreat tid then
              updateUnit st1 tid fun v => { v with broken := true }
            else
              updateUnit st1 tid fun v => { v with strength := 0 }
          else
            -- Both fail: each gains Breaking, loses 2 RDY
            let newAtkRdy := max 0 (u.readiness - 2)
            let newDefRdy := max 0 (t.readiness - 2)
            let st1 := updateUnit st cid fun v =>
              { v with readiness := newAtkRdy, breaking := true }
            updateUnit st1 tid fun v => { v with readiness := newDefRdy, breaking := true }

/-- `_runAssaultMorale(damageTakenMap)`: the loop over the combatants. -/
def runAssaultMorale (env : MoraleEnv) (dmg : String → Int) (st : List MUnit) :
    List MUnit :=
  (st.map fun u => u.id).foldl (fun s cid => assaultStep env dmg s cid) st

/-- Steps 5 and 6 of `_runConsolidationEffects`: the standard morale checks
followed by the assault resolution. -/
def runConsolidationMorale (env : MoraleEnv) (dmg : String → Int)
    (st : List MUnit) : List MUnit :=
  runAssaultMorale env dmg (runMoraleChecks env dmg st)

/-! ## Sample data for concrete evaluations -/

/-- A baseline unit with the schema-default pools, no penalties, no traits
(`UnitData` schema defaults, with the trained rating). -/
def baseUnit : Actor :=
  { type := "unit", rating := "trained", strengthValue := 10, strengthMax := 10,
    readinessValue := 8, readinessMax := 8, supplyCurrent := 10, supplyCapacity := 10,
    ewar := 0, casualtyPenalty := 0, readinessPenaltyAccuracy := 0,
    readinessPenaltyDamage := 0, currentOrder := "", traits := [] }

/-- A baseline soft weapon with the schema defaults (damage 3, range 3). -/
def baseWeapon : Weapon :=
  { attackType := "soft", damage := 3, range := 3, accurate := 0, inaccurate := 0,
    area := false, targetId := "" }

/-- Token flags with nothing set. -/
def emptyFlags : TokenFlags :=
  { pendingDamage := none, movementUsed := none, moveDestination := none,
    assaultTarget := none, weaponsFired := none, disordered := none,
    breaking := none, broken := none }

/-! # Theorems -/

/-! ## C7 — hit determination table -/

/-- **C7.**  For every effective accuracy threshold `t`,
`determineHitResult 1 t` is a miss of type `critical_miss` and
`determineHitResult 10 t` is a hit of type `critical_hit`; for every roll
`r` strictly between 1 and 10, the result is a miss if `r < t`, a hit of
type `partial` if `r = t`, and a hit of type `hit` if `r > t`. -/
theorem determineHitResult_spec (r t : Int) :
    determineHitResult 1 t = { hit := false, type := "critical_miss" } ∧
    determineHitResult 10 t = { hit := true, type := "critical_hit" } ∧
    (1 < r → r < 10 →
      ((r < t → determineHitResult r t = { hit := false, type := "miss" }) ∧
       (r = t → determineHitResult r t = { hit := true, type := "partial" }) ∧
       (t < r → determineHitResult r t = { hit := true, type := "hit" }))) := by
  refine ⟨?_, ?_, ?_⟩
  · simp [determineHitResult]
  · norm_num [determineHitResult]
  · intro h1 h10
    refine ⟨?_, ?_, ?_⟩ <;> intro h <;> unfold determineHitResult <;>
      split_ifs <;> first | rfl | omega

/-- Witness for C7 at roll 5, 6 and 7 against threshold 6. -/
theorem determineHitResult_spec_witness :
    determineHitResult 5 6 = { hit := false, type := "miss" } ∧
    determineHitResult 6 6 = { hit := true, type := "partial" } ∧
    determineHitResult 7 6 = { hit := true, type := "hit" } :=
  ⟨((determineHitResult_spec 5 6).2.2 (by norm_num) (by norm_num)).1 (by norm_num),
   ((determineHitResult_spec 6 6).2.2 (by norm_num) (by norm_num)).2.1 rfl,
   ((determineHitResult_spec 7 6).2.2 (by norm_num) (by norm_num)).2.2 (by norm_num)⟩

/-! ## C8 — morale roll primitive -/

/-- **C8.**  For every die value, damage-taken amount, isolation flag and
readiness value, `_evaluateMoraleRoll` returns `autoFail` with
`passed = false` and `total = die` when the die is 1, regardless of the
modifiers; otherwise `total = die - damageTaken - (2 if isolated else 0)`
and the check passes exactly when `total > readiness`. -/
theorem evaluateMoraleRoll_spec (die damageTaken : Int) (iso : Bool) (readiness : Int) :
    (die = 1 →
      evaluateMoraleRoll die damageTaken iso readiness =
        { total := die, passed := false, autoFail := true }) ∧
    (die ≠ 1 →
      (evaluateMoraleRoll die damageTaken iso readiness).total =
        die - damageTaken - (if iso then 2 else 0) ∧
      ((evaluateMoraleRoll die damageTaken iso readiness).passed = true ↔
        (evaluateMoraleRoll die damageTaken iso readiness).total > readiness) ∧
      (evaluateMoraleRoll die damageTaken iso readiness).autoFail = false) := by
  constructor
  · intro h; simp [evaluateMoraleRoll, h]
  · intro h; simp [evaluateMoraleRoll, h]

/-- Witness for C8: a natural 1 with bonuses still fails; a 7 with 2 damage
taken while isolated totals 3 against readiness 4. -/
theorem evaluateMoraleRoll_spec_witness :
    (evaluateMoraleRoll 1 0 false 2 = { total := 1, passed := false, autoFail := true }) ∧
    ((evaluateMoraleRoll 7 2 true 4).total = 7 - 2 - (if true then 2 else 0) ∧
     ((evaluateMoraleRoll 7 2 true 4).passed = true ↔
       (evaluateMoraleRoll 7 2 true 4).total > 4) ∧
     (evaluateMoraleRoll 7 2 true 4).autoFail = false) :=
  ⟨(evaluateMoraleRoll_spec 1 0 false 2).1 rfl,
   (evaluateMoraleRoll_spec 7 2 true 4).2 (by norm_num)⟩

/-! ## C5 — damage application -/

/-- The floating-point guard `damage > maxStrength * 0.25` of `applyDamage`,
read over ℚ, is the integer comparison `4 * damage > maxStrength`. -/
theorem damage_quarter_iff (d m : Int) :
    ((d : ℚ) > (m : ℚ) * (1 / 4)) ↔ 4 * d > m := by
  rw [gt_iff_lt, mul_one_div, div_lt_iff (by norm_num : (0 : ℚ) < 4)]
  rw [show ((d : ℚ) * 4) = ((4 * d : Int) : ℚ) by push_cast; ring]
  exact Int.cast_lt

/-- **C5.**  For every unit with positive strength and max ≥ 1,
`applyDamage(damage)` yields `newStrength = max 0 (strength.value - damage)`,
`readinessLost = 2` iff the damage exceeds a quarter of max strength (else
1), `newReadiness = max 0 (readiness.value - readinessLost)`,
`destroyed` iff `newStrength ≤ 0`, and `routed` iff not destroyed and
`newReadiness ≤ 0`. -/
theorem applyDamage_spec (a : Actor) (damage : Int)
    (hstr : 0 < a.strengthValue) (hmax : 1 ≤ a.strengthMax) :
    (applyDamage a damage).newStrength = max 0 (a.strengthValue - damage) ∧
    (applyDamage a damage).readinessLost =
      (if 4 * damage > a.strengthMax then 2 else 1) ∧
    (applyDamage a damage).newReadiness =
      max 0 (a.readinessValue - (applyDamage a damage).readinessLost) ∧
    ((applyDamage a damage).destroyed = true ↔ (applyDamage a damage).newStrength ≤ 0) ∧
    ((applyDamage a damage).routed = true ↔
      ((applyDamage a damage).destroyed = false ∧
        (applyDamage a damage).newReadiness ≤ 0)) := by
  refine ⟨rfl, ?_, rfl, ?_, ?_⟩
  · simp only [applyDamage, damage_quarter_iff]
  · simp [applyDamage]
  · simp [applyDamage, Bool.and_eq_true, Bool.not_eq_true', decide_eq_true_eq]

/-- Witness for C5: the spec scenario — strength 10/10, readiness 3,
damage 4 (more than 25% of 10) gives readinessLost 2, readiness 1,
strength 6, not destroyed, not routed. -/
theorem applyDamage_spec_witness :
    (applyDamage { baseUnit with readinessValue := 3 } 4 =
      { newStrength := 6, newReadiness := 1, readinessLost := 2,
        destroyed := false, routed := false }) ∧
    ((applyDamage { baseUnit with readinessValue := 3 } 4).readinessLost =
      (if 4 * 4 > ({ baseUnit with readinessValue := 3 } : Actor).strengthMax
        then 2 else 1)) := by
  constructor
  · show applyDamage { baseUnit with readinessValue := 3 } 4 = _
    norm_num [applyDamage, baseUnit]
  · exact (applyDamage_spec { baseUnit with readinessValue := 3 } 4
      (by norm_num [baseUnit]) (by norm_num [baseUnit])).2.1

/-! ## C10 — supply transfer -/

/-- **C10.**  `transferSupply(target, amount)` moves exactly
`min(amount, sender supply, target capacity - target supply)` supply points
when that minimum is positive and the target is a unit — conserving the sum
of the two pools, never pushing the receiver above its capacity and never
dropping the sender below 0 — and otherwise returns false leaving both
pools unchanged. -/
theorem transferSupply_spec (sender target : Actor) (amount : Int) :
    (target.type = "unit" →
      0 < min amount (min sender.supplyCurrent
          (target.supplyCapacity - target.supplyCurrent)) →
      (transferSupply sender target amount =
        { success := true,
          senderSupply := sender.supplyCurrent - min amount (min sender.supplyCurrent
            (target.supplyCapacity - target.supplyCurrent)),
          targetSupply := target.supplyCurrent + min amount (min sender.supplyCurrent
            (target.supplyCapacity - target.supplyCurrent)) } ∧
       (transferSupply sender target amount).senderSupply +
          (transferSupply sender target amount).targetSupply =
        sender.supplyCurrent + target.supplyCurrent ∧
       (transferSupply sender target amount).targetSupply ≤ target.supplyCapacity ∧
       0 ≤ (transferSupply sender target amount).senderSupply)) ∧
    ((target.type ≠ "unit" ∨
      min amount (min sender.supplyCurrent
        (target.supplyCapacity - target.supplyCurrent)) ≤ 0) →
      transferSupply sender target amount =
        { success := false, senderSupply := sender.supplyCurrent,
          targetSupply := target.supplyCurrent }) := by
  constructor
  · intro ht hpos
    have hne : (target.type != "unit") = false := by simp [ht]
    have hif : ¬ (min amount (min sender.supplyCurrent
        (target.supplyCapacity - target.supplyCurrent)) ≤ 0) := by omega
    refine ⟨?_, ?_, ?_, ?_⟩ <;>
      simp only [transferSupply, hne, Bool.false_eq_true, if_false, if_neg hif] <;>
      omega
  · intro hor
    simp only [transferSupply]
    split_ifs with h1 h2
    · rfl
    · rfl
    · exfalso
      rcases hor with hne | hle
      · exact hne (by simpa using h1)
      · exact h2 hle

/-- Witness for C10: sender with 10 supply sends 5 to a unit holding 3 of
capacity 10 — all 5 move; and a transfer of 0 fails without change. -/
theorem transferSupply_spec_witness :
    (transferSupply baseUnit { baseUnit with supplyCurrent := 3 } 5 =
      { success := true,
        senderSupply := baseUnit.supplyCurrent - min 5 (min baseUnit.supplyCurrent
          (({ baseUnit with supplyCurrent := 3 } : Actor).supplyCapacity -
           ({ baseUnit with supplyCurrent := 3 } : Actor).supplyCurrent)),
        targetSupply := ({ baseUnit with supplyCurrent := 3 } : Actor).supplyCurrent +
          min 5 (min baseUnit.supplyCurrent
          (({ baseUnit with supplyCurrent := 3 } : Actor).supplyCapacity -
           ({ baseUnit with supplyCurrent := 3 } : Actor).supplyCurrent)) }) ∧
    (transferSupply baseUnit { baseUnit with supplyCurrent := 3 } 0 =
      { success := false, senderSupply := baseUnit.supplyCurrent,
        targetSupply := ({ baseUnit with supplyCurrent := 3 } : Actor).supplyCurrent }) :=
  ⟨((transferSupply_spec baseUnit { baseUnit with supplyCurrent := 3 } 5).1
      rfl (by norm_num [baseUnit])).1,
   (transferSupply_spec baseUnit { baseUnit with supplyCurrent := 3 } 0).2
      (Or.inr (by norm_num [baseUnit]))⟩

/-! ## C9 — invalid attacks short-circuit -/

/-- **C9.**  For every weapon/target combination rejected by the validator,
`resolveAttack` returns a structured result with `valid = false` and a
reason, with `roll`, `accuracy`, `hitResult` and `damage` all null; the
function is pure — it performs no document update, so no strength,
readiness or supply changes. -/
theorem resolveAttack_invalid_spec (weapon : Weapon) (attacker target : Actor)
    (aid tid : Option String) (die : Int)
    (h : (validateAttack weapon target).valid = false) :
    resolveAttack weapon attacker target aid tid die =
      { valid := false, reason := (validateAttack weapon target).reason,
        roll := none, accuracy := none, hitResult := none, damage := none,
        softVsHeavy := none } ∧
    (validateAttack weapon target).reason.isSome = true := by
  constructor
  · simp [resolveAttack, h]
  · simp only [validateAttack] at h ⊢
    split_ifs at h ⊢ <;> simp_all

/-- Witness for C9: a soft weapon fired at a Flying (non-hovering) target is
rejected and short-circuits with all-null analysis fields. -/
theorem resolveAttack_invalid_spec_witness :
    resolveAttack baseWeapon baseUnit
        { baseUnit with traits := [{ name := "Flying", traitValue := 0, active := true }] }
        none none 7 =
      { valid := false,
        reason := (validateAttack baseWeapon
          { baseUnit with
            traits := [{ name := "Flying", traitValue := 0, active := true }] }).reason,
        roll := none, accuracy := none, hitResult := none, damage := none,
        softVsHeavy := none } ∧
    (validateAttack baseWeapon
      { baseUnit with
        traits := [{ name := "Flying", traitValue := 0, active := true }] }).reason.isSome =
      true :=
  resolveAttack_invalid_spec baseWeapon baseUnit
    { baseUnit with traits := [{ name := "Flying", traitValue := 0, active := true }] }
    none none 7 (by decide)

/-! ## C6 — soft attacks against Heavy targets -/

/-- **C6.**  For every soft-attack weapon fired at a target with the active
Heavy trait that is not blocked by the Flying rule, the attack is valid but
flagged `softVsHeavy`; under that flag only a natural 10 hits, and such a
hit deals exactly 1 damage regardless of the weapon damage and every other
modifier. -/
theorem resolveAttack_softVsHeavy_spec (weapon : Weapon) (attacker target : Actor)
    (aid tid : Option String) (die : Int)
    (hsoft : weapon.attackType = "soft")
    (hheavy : target.hasTrait "Heavy" = true)
    (hfly : (target.hasTrait "Flying" && !target.hasTrait "Hover") = false) :
    (resolveAttack weapon attacker target aid tid die).valid = true ∧
    (resolveAttack weapon attacker target aid tid die).softVsHeavy = some true ∧
    (die ≠ 10 →
      (resolveAttack weapon attacker target aid tid die).hitResult =
        some { hit := false, type := "miss" } ∧
      (resolveAttack weapon attacker target aid tid die).damage = none) ∧
    (die = 10 →
      (resolveAttack weapon attacker target aid tid die).hitResult =
        some { hit := true, type := "critical_hit" } ∧
      (resolveAttack weapon attacker target aid tid die).damage =
        some { final := 1, base := weapon.damage,
               modifiers := [{ label := "Soft vs Heavy (fixed)", value := none }] }) := by
  have hval : validateAttack weapon target =
      { valid := true, reason := none, softVsHeavy := true } := by
    unfold validateAttack
    rw [hsoft]
    cases hF : target.hasTrait "Flying" <;> cases hH : target.hasTrait "Hover" <;>
      simp_all
  refine ⟨?_, ?_, ?_, ?_⟩
  · simp [resolveAttack, hval]
  · simp [resolveAttack, hval]
  · intro hdie
    constructor <;> simp [resolveAttack, hval, hdie]
  · intro hdie
    subst hdie
    constructor <;> simp [resolveAttack, hval, determineHitResult]

/-- Witness for C6: soft weapon (damage 3) against an active-Heavy target —
a roll of 7 misses, a roll of 10 hits for exactly 1 damage. -/
theorem resolveAttack_softVsHeavy_spec_witness :
    ((resolveAttack baseWeapon baseUnit
        { baseUnit with traits := [{ name := "Heavy", traitValue := 0, active := true }] }
        none none 7).hitResult = some { hit := false, type := "miss" }) ∧
    ((resolveAttack baseWeapon baseUnit
        { baseUnit with traits := [{ name := "Heavy", traitValue := 0, active := true }] }
        none none 10).damage =
      some { final := 1, base := baseWeapon.damage,
             modifiers := [{ label := "Soft vs Heavy (fixed)", value := none }] }) :=
  ⟨((resolveAttack_softVsHeavy_spec baseWeapon baseUnit
      { baseUnit with traits := [{ name := "Heavy", traitValue := 0, active := true }] }
      none none 7 rfl (by decide) (by decide)).2.2.1 (by norm_num)).1,
   ((resolveAttack_softVsHeavy_spec baseWeapon baseUnit
      { baseUnit with traits := [{ name := "Heavy", traitValue := 0, active := true }] }
      none none 10 rfl (by decide) (by decide)).2.2.2 rfl).2⟩

/-! ## C1 — base accuracy and the rating table -/

/-- **C1** fails on the code: `calculateAccuracy` reads
`ratings?.[rating]?.accuracy ?? 7`, but no entry of `STARMERCS.ratings` in
`config.mjs` defines an `accuracy` property (the table holds only `label`
and `bonus`), so the base threshold is 7 for every rating — not the
documented green=7 / trained=6 / experienced=5 / veteran=4 / elite=3 — and a
trained attacker with no modifiers rolling a 7 gets a `partial` result
rather than a normal hit.  This theorem evaluates the code at the failing
input. -/
theorem calculateAccuracy_base_ignores_rating :
    ((["green", "trained", "experienced", "veteran", "elite"].map fun r =>
        (calculateAccuracy baseWeapon { baseUnit with rating := r } none).base) =
      [7, 7, 7, 7, 7]) ∧
    (calculateAccuracy baseWeapon baseUnit none).base = 7 ∧
    (calculateAccuracy baseWeapon baseUnit none).effective = 7 ∧
    determineHitResult 7 (calculateAccuracy baseWeapon baseUnit none).effective =
      { hit := true, type := "partial" } := by
  refine ⟨by decide, by decide, by decide, by decide⟩

/-! ## C4 — disordered targets -/

/-- An attacking token with no flags set. -/
def attackerTokenC4 : Token := { id := "ATK", flags := emptyFlags }

/-- The target token of the C4 evaluation, with the given `disordered`
flag. -/
def targetTokenC4 (d : Option Bool) : Token :=
  { id := "TGT", flags := { emptyFlags with disordered := d } }

/-- **C4** fails on the code: the `disordered` flag set by a failed
withdraw-morale test is never read by `calculateAccuracy` or
`calculateDamage`, so an attack against a disordered unit resolves exactly
like the same attack against the identical unit without the flag — the
threshold is not 1 lower and the damage is not 1 higher.  Evaluated here at
a concrete failing input: a trained attacker (threshold 7) rolling an 8
with a damage-3 weapon gets effective 7 and damage 3 whether or not the
target token is disordered (the claim requires 6 and 4 for the disordered
case). -/
theorem resolveAttack_ignores_disordered :
    (resolveTargetedAttack baseWeapon baseUnit baseUnit attackerTokenC4
        (targetTokenC4 (some true)) 8 =
      resolveTargetedAttack baseWeapon baseUnit baseUnit attackerTokenC4
        (targetTokenC4 none) 8) ∧
    ((resolveTargetedAttack baseWeapon baseUnit baseUnit attackerTokenC4
        (targetTokenC4 (some true)) 8).accuracy =
      some { effective := 7, base := 7, readinessMod := 0, ewarMod := 0,
             accurateMod := 0, inaccurateMod := 0 }) ∧
    ((resolveTargetedAttack baseWeapon baseUnit baseUnit attackerTokenC4
        (targetTokenC4 (some true)) 8).damage =
      some { final := 3, base := 3, modifiers := [] }) := by
  refine ⟨by decide, by decide, by decide⟩

/-! ## C2 — consolidation cleanup -/

/-- A combatant entering cleanup with every per-round flag still set. -/
def dirtyCombatant : Combatant :=
  { actorType := "unit",
    weapons := [{ baseWeapon with targetId := "E" }],
    currentOrder := "hold",
    token := some
      { pendingDamage := some { strength := 3, readiness := 1, hits := [] },
        movementUsed := some 2, moveDestination := some (4, 5),
        assaultTarget := some "E", weaponsFired := some 2,
        disordered := some true, breaking := none, broken := none } }

/-- **C2** fails on the code as stated: `_runConsolidationCleanup` unsets
`movementUsed`, `moveDestination`, `assaultTarget`, `weaponsFired` and
`disordered` and clears `currentOrder`, but it never touches
`pendingDamage` — a combatant that still carries a `pendingDamage` flag
keeps it through the cleanup (that flag is only unset when the damage is
applied in `_runConsolidationEffects`, and even there only when its totals
are positive). -/
theorem runConsolidationCleanup_pendingDamage_counterexample :
    ((runConsolidationCleanup [dirtyCombatant]).map fun c =>
      c.token.map fun tk => tk.pendingDamage) =
    [some (some { strength := 3, readiness := 1, hits := [] })] := by
  decide

/-- **C2 (amended).**  For every combatant unit with a token, the cleanup
clears `movementUsed`, `moveDestination`, `assaultTarget`, `weaponsFired`
and `disordered` and empties `currentOrder`, while `pendingDamage` (and the
`breaking`/`broken` morale flags) pass through unchanged. -/
theorem runConsolidationCleanup_spec (cs : List Combatant) (c : Combatant)
    (tk : TokenFlags) (hc : c ∈ cs) (hu : c.actorType = "unit")
    (htk : c.token = some tk) :
    runConsolidationCleanupOne c ∈ runConsolidationCleanup cs ∧
    (runConsolidationCleanupOne c).currentOrder = "" ∧
    (runConsolidationCleanupOne c).token =
      some { tk with movementUsed := none, moveDestination := none,
                     assaultTarget := none, weaponsFired := none,
                     disordered := none } := by
  have hne : (c.actorType != "unit") = false := by simp [hu]
  refine ⟨List.mem_map_of_mem _ hc, ?_, ?_⟩ <;>
    simp [runConsolidationCleanupOne, hne, htk]

/-- Witness for C2 (amended) at the concrete dirty combatant. -/
theorem runConsolidationCleanup_spec_witness :
    runConsolidationCleanupOne dirtyCombatant ∈
      runConsolidationCleanup [dirtyCombatant] ∧
    (runConsolidationCleanupOne dirtyCombatant).currentOrder = "" ∧
    (runConsolidationCleanupOne dirtyCombatant).token =
      some { pendingDamage := some { strength := 3, readiness := 1, hits := [] },
             movementUsed := none, moveDestination := none,
             assaultTarget := none, weaponsFired := none,
             disordered := none, breaking := none, broken := none } :=
  runConsolidationCleanup_spec [dirtyCombatant] dirtyCombatant
    { pendingDamage := some { strength := 3, readiness := 1, hits := [] },
      movementUsed := some 2, moveDestination := some (4, 5),
      assaultTarget := some "E", weaponsFired := some 2,
      disordered := some true, breaking := none, broken := none }
    (List.mem_singleton.mpr rfl) rfl rfl

/-! ## C3 — morale status flags -/

/-- Oracle for the C3 counterexample run: morale dice come up 2, the
assault attacker rolls a 10 and the defender a 2, nobody is isolated or
near a Command unit, and the defender has room to retreat. -/
def envC3 : MoraleEnv :=
  { die1 := fun _ => 2, die2 := fun _ => 2,
    commsIsolated := fun _ => false, hasCommandNearby := fun _ => false,
    assaultDieA := fun _ => 10, assaultDieD := fun _ => 2,
    canRetreat := fun _ => true }

/-- The assaulting unit of the C3 counterexample. -/
def attackerC3 : MUnit :=
  { id := "A", strength := 5, readiness := 8, currentOrder := "assault",
    breaking := false, broken := false, assaultTarget := some "D" }

/-- The defender of the C3 counterexample: a Hold-ordered unit with
readiness below 10. -/
def defenderC3 : MUnit :=
  { id := "D", strength := 5, readiness := 5, currentOrder := "hold",
    breaking := false, broken := false, assaultTarget := none }

/-- **C3** fails on the code as stated: a defender that fails its standard
consolidation morale check gains `breaking`, and when the subsequent
assault resolution routs it (attacker passes, defender fails, a retreat hex
exists) `_runAssaultMorale` sets `broken` without clearing `breaking` — so
a state with both flags set at once is reachable by running the
consolidation morale checks followed by the assault resolution. -/
theorem morale_breaking_and_broken_counterexample :
    lookupUnit (runConsolidationMorale envC3 (fun _ => 0) [attackerC3, defenderC3]) "D" =
      some { id := "D", strength := 5, readiness := 3, currentOrder := "hold",
             breaking := true, broken := true, assaultTarget := none } := by
  decide

/-- An update keyed to a different token id does not change what a live
lookup of this id sees (all updates used by the morale engine preserve the
token id of the records they touch). -/
theorem lookupUnit_updateUnit_ne (st : List MUnit) (k cid : String)
    (f : MUnit → MUnit) (hk : k ≠ cid) (hf : ∀ v, (f v).id = v.id) :
    lookupUnit (updateUnit st k f) cid = lookupUnit st cid := by
  unfold lookupUnit updateUnit
  rw [List.find?_map]
  have hp : ((fun u : MUnit => u.id == cid) ∘ fun u => if (u.id == k) = true then f u else u)
      = fun u : MUnit => u.id == cid := by
    funext u
    by_cases h : u.id = k
    · simp [Function.comp, h, hf u]
    · simp [Function.comp, h]
  rw [hp]
  cases hfind : List.find? (fun u : MUnit => u.id == cid) st with
  | none => rfl
  | some v =>
    have hvid : v.id = cid := by
      have hv := List.find?_some hfind
      simpa using hv
    have hvk : (v.id == k) = false := by
      rw [hvid]
      simp only [beq_eq_false_iff_ne]
      exact fun hh => hk hh.symm
    simp [Option.map, hvk]

/-- One standard morale-check iteration never touches a unit that has
already surrendered (strength at 0): the loop body skips it when visited,
and every update it performs elsewhere is keyed to a unit that is still
alive. -/
theorem moraleStep_preserves_surrendered (env : MoraleEnv) (dmg : String → Int)
    (st : List MUnit) (c cid : String) (u : MUnit)
    (h : lookupUnit st cid = some u) (hs : u.strength ≤ 0) :
    lookupUnit (moraleStep env dmg st c) cid = some u := by
  by_cases hc : c = cid
  · subst hc
    simp only [moraleStep, h]
    rw [if_pos hs]
    exact h
  · cases hl : lookupUnit st c with
    | none => simp only [moraleStep, hl]; exact h
    | some w =>
      simp only [moraleStep, hl]
      by_cases h1 : w.strength ≤ 0
      · rw [if_pos h1]; exact h
      · rw [if_neg h1]
        by_cases h2 : (w.currentOrder == "assault") = true
        · rw [if_pos h2]; exact h
        · rw [if_neg h2]
          by_cases h3 : (w.breaking || w.broken) = true
          · rw [if_pos h3]
            by_cases h4 : dmg c = 0
            · rw [if_pos h4]
              exact (lookupUnit_updateUnit_ne st c cid
                (fun v => { v with breaking := false, broken := false }) hc
                fun v => rfl).trans h
            · rw [if_neg h4]
              by_cases h5 : moraleFinalPassed env c (dmg c) w.readiness = true
              · rw [if_pos h5]
                exact (lookupUnit_updateUnit_ne st c cid
                  (fun v => { v with breaking := false, broken := false }) hc
                  fun v => rfl).trans h
              · rw [if_neg h5]
                exact (lookupUnit_updateUnit_ne st c cid
                  (fun v => { v with strength := 0, breaking := false, broken := false }) hc
                  fun v => rfl).trans h
          · rw [if_neg h3]
            by_cases h6 : w.readiness < 10
            · rw [if_pos h6]
              by_cases h7 : moraleFinalPassed env c (dmg c) w.readiness = true
              · rw [if_pos h7]; exact h
              · rw [if_neg h7]
                exact (lookupUnit_updateUnit_ne st c cid
                  (fun v => { v with breaking := true }) hc fun v => rfl).trans h
            · rw [if_neg h6]; exact h

/-- One assault-resolution iteration never touches a surrendered unit:
visited as the assaulting unit it is skipped by the strength check, visited
as the assault target it is skipped by the target liveness check, and every
readiness/flag/strength update is keyed to a live unit. -/
theorem assaultStep_preserves_surrendered (env : MoraleEnv) (dmg : String → Int)
    (st : List MUnit) (c cid : String) (u : MUnit)
    (h : lookupUnit st cid = some u) (hs : u.strength ≤ 0) :
    lookupUnit (assaultStep env dmg st c) cid = some u := by
  by_cases hc : c = cid
  · subst hc
    simp only [assaultStep, h]
    by_cases h1 : (u.currentOrder != "assault") = true
    · rw [if_pos h1]; exact h
    · rw [if_neg h1, if_pos hs]; exact h
  · cases hl : lookupUnit st c with
    | none => simp only [assaultStep, hl]; exact h
    | some w =>
      simp only [assaultStep, hl]
      by_cases h1 : (w.currentOrder != "assault") = true
      · rw [if_pos h1]; exact h
      · rw [if_neg h1]
        by_cases h2 : w.strength ≤ 0
        · rw [if_pos h2]; exact h
        · rw [if_neg h2]
          cases hat : w.assaultTarget with
          | none => exact h
          | some tid =>
            dsimp only
            cases hlt : lookupUnit st tid with
            | none => simp only [hlt]; exact h
            | some t =>
              simp only [hlt]
              by_cases htid : tid = cid
              · subst htid
                rw [h] at hlt
                injection hlt with htu
                rw [if_pos (htu ▸ hs)]
                exact h
              · by_cases h3 : t.strength ≤ 0
                · rw [if_pos h3]; exact h
                · rw [if_neg h3]
                  split_ifs with h4 h5 h6 h7
                  · exact h
                  · exact (lookupUnit_updateUnit_ne st c cid
                      (fun v => { v with readiness := max 0 (w.readiness - 2),
                                         breaking := true }) hc fun v => rfl).trans h
                  · exact (lookupUnit_updateUnit_ne
                      (updateUnit st tid
                        (fun v => { v with readiness := max 0 (t.readiness - 2) }))
                      tid cid (fun v => { v with broken := true }) htid
                      fun v => rfl).trans
                      ((lookupUnit_updateUnit_ne st tid cid
                        (fun v => { v with readiness := max 0 (t.readiness - 2) }) htid
                        fun v => rfl).trans h)
                  · exact (lookupUnit_updateUnit_ne
                      (updateUnit st tid
                        (fun v => { v with readiness := max 0 (t.readiness - 2) }))
                      tid cid (fun v => { v with strength := 0 }) htid
                      fun v => rfl).trans
                      ((lookupUnit_updateUnit_ne st tid cid
                        (fun v => { v with readiness := max 0 (t.readiness - 2) }) htid
                        fun v => rfl).trans h)
                  · exact (lookupUnit_updateUnit_ne
                      (updateUnit st c
                        (fun v => { v with readiness := max 0 (w.readiness - 2),
                                           breaking := true }))
                      tid cid
                      (fun v => { v with readiness := max 0 (t.readiness - 2),
                                         breaking := true }) htid
                      fun v => rfl).trans
                      ((lookupUnit_updateUnit_ne st c cid
                        (fun v => { v with readiness := max 0 (w.readiness - 2),
                                           breaking := true }) hc
                        fun v => rfl).trans h)

/-- Folding a state-preserving step over any visit order preserves the
property. -/
theorem foldl_preserves_lookup {α : Type} (step : List MUnit → α → List MUnit)
    (cid : String) (u : MUnit)
    (hstep : ∀ s x, lookupUnit s cid = some u → lookupUnit (step s x) cid = some u)
    (l : List α) (s : List MUnit) (hs : lookupUnit s cid = some u) :
    lookupUnit (l.foldl step s) cid = some u := by
  induction l generalizing s with
  | nil => exact hs
  | cons x xs ih => exact ih _ (hstep s x hs)

/-- **C3 (amended).**  Surrender is terminal: a unit whose strength has been
forced to 0 is skipped by the standard morale checks and by the assault
resolution, so no run of the consolidation morale passes changes its state
again.  (The other half of the original claim — that `breaking` and
`broken` are mutually exclusive — is refuted by
`morale_breaking_and_broken_counterexample`.) -/
theorem surrendered_units_terminal (env : MoraleEnv) (dmg : String → Int)
    (st : List MUnit) (cid : String) (u : MUnit)
    (h : lookupUnit st cid = some u) (hs : u.strength ≤ 0) :
    lookupUnit (runConsolidationMorale env dmg st) cid = some u := by
  unfold runConsolidationMorale runMoraleChecks runAssaultMorale
  apply foldl_preserves_lookup _ cid u
    (fun s x hx => assaultStep_preserves_surrendered env dmg s x cid u hx hs)
  apply foldl_preserves_lookup _ cid u
    (fun s x hx => moraleStep_preserves_surrendered env dmg s x cid u hx hs)
  exact h

/-- Witness for C3 (amended): a surrendered unit targeted by an assault and
sitting next to an assaulting attacker is untouched by a full consolidation
morale pass. -/
theorem surrendered_units_terminal_witness :
    lookupUnit (runConsolidationMorale envC3 (fun _ => 0)
      [attackerC3, { defenderC3 with strength := 0 }]) "D" =
      some { defenderC3 with strength := 0 } :=
  surrendered_units_terminal envC3 (fun _ => 0)
    [attackerC3, { defenderC3 with strength := 0 }] "D"
    { defenderC3 with strength := 0 } (by decide) (by decide)

end StarMercs
